import Mathlib

/-!
Verification development for the elasticmonitor network-monitoring dashboard.

Shallow embedding of the server core: the record store (`DatabaseStorage` in
server/storage.ts), the aggregation engine (`NetworkMonitor` in
server/services/networkMonitor.ts), and the realtime gateway
(`registerRoutes` / `broadcast` / `sendInitialData` in server/routes.ts),
plus the zod insert schema from shared/schema.ts.

Conventions of the embedding:
* timestamps are `Int` milliseconds since the epoch (JS `Date.getTime()`);
* SQL `ORDER BY ts DESC` is modelled by `List.insertionSort` with the
  corresponding comparison (the database promises some sorted order; ties
  are resolved by the model's sort);
* JS objects used as counters (`{ [key: string]: number }`) are modelled as
  association lists in key-insertion order, which is how `Object.entries`
  iterates them for non-index string keys;
* nullable columns are `Option`; JS `x || 0` on a possibly-null number is
  `Option.getD x 0`;
* a fallible store call is an `Except Unit` value driven by an explicit
  oracle saying which calls succeed; a JS `try/catch` is the `match` on
  that `Except`.
-/

namespace ElasticMonitor

/-- `network_logs` row (shared/schema.ts): id serial, timestamp, sourceIp
notNull, destinationIp/destinationHost/destinationPort nullable, protocol
notNull, action notNull, dataSize nullable with default 0, duration
nullable. Metadata/userId are carried by the real row but never read by the
code under verification, so they are not modelled. -/
structure NetworkLog where
  id : Nat
  timestamp : Int
  sourceIp : String
  destinationIp : Option String := none
  destinationHost : Option String := none
  destinationPort : Option Int := none
  protocol : String
  action : String
  dataSize : Option Int := some 0
  duration : Option Int := none
  deriving Repr, DecidableEq

/-- `alerts` row (shared/schema.ts): id serial, timestamp, severity, type,
title, description notNull, sourceIp nullable, isResolved default false,
resolvedAt nullable. -/
structure Alert where
  id : Nat
  timestamp : Int
  severity : String
  type : String
  title : String
  description : String
  sourceIp : Option String := none
  isResolved : Bool := false
  resolvedAt : Option Int := none
  deriving Repr, DecidableEq

/-- `connections` row (shared/schema.ts); only the fields the verified code
reads are modelled. -/
structure Connection where
  id : Nat
  startTime : Int
  sourceIp : String
  destinationHost : String
  protocol : String
  totalDataSize : Int := 0
  connectionCount : Int := 1
  isActive : Bool := true
  lastActivity : Int
  deriving Repr, DecidableEq

/-- `traffic_metrics` row (shared/schema.ts). `totalTraffic` is a decimal
column surfaced as a string; the distribution maps are JSONB objects,
modelled as association lists in key order. -/
structure TrafficMetric where
  id : Nat
  timestamp : Int
  totalTraffic : String
  activeConnections : Int
  blockedRequests : Int
  protocolDistribution : List (String × Nat)
  topDestinations : List (String × Nat)
  deriving Repr, DecidableEq

/-- Payload of `insertNetworkLogSchema` (the `networkLogs` insert shape with
`id` and `timestamp` omitted). `none` means the field is absent from the
insert object, so the database default applies where one exists. -/
structure InsertNetworkLog where
  sourceIp : String
  destinationIp : Option String := none
  destinationHost : Option String := none
  destinationPort : Option Int := none
  protocol : String
  action : String
  dataSize : Option Int := none
  duration : Option Int := none
  deriving Repr, DecidableEq

/-- Payload of `insertAlertSchema` as built by the monitor (the fields the
engine actually sets; `isResolved`/`resolvedAt` are left to their database
defaults `false`/`NULL`). -/
structure InsertAlert where
  severity : String
  type : String
  title : String
  description : String
  sourceIp : Option String := none
  deriving Repr, DecidableEq

/-- Payload of `insertTrafficMetricsSchema` as built by `aggregateMetrics`. -/
structure InsertTrafficMetric where
  totalTraffic : String
  activeConnections : Int
  blockedRequests : Int
  protocolDistribution : List (String × Nat)
  topDestinations : List (String × Nat)
  deriving Repr, DecidableEq

/-- The relational store: the four tables plus the serial-id counters the
database maintains for the `serial` primary keys. -/
structure StoreState where
  networkLogs : List NetworkLog := []
  alerts : List Alert := []
  connections : List Connection := []
  trafficMetrics : List TrafficMetric := []
  nextLogId : Nat := 1
  nextAlertId : Nat := 1
  nextMetricId : Nat := 1
  deriving Repr, DecidableEq

def emptyStore : StoreState := {}

/-! ### Store operations (`DatabaseStorage`, server/storage.ts) -/

/-- `createNetworkLog`: INSERT assigning the serial id, the `defaultNow()`
timestamp, and the `dataSize` column default `0` when the field is absent. -/
def createNetworkLog (st : StoreState) (l : InsertNetworkLog) (now : Int) :
    StoreState × NetworkLog :=
  let row : NetworkLog :=
    { id := st.nextLogId
      timestamp := now
      sourceIp := l.sourceIp
      destinationIp := l.destinationIp
      destinationHost := l.destinationHost
      destinationPort := l.destinationPort
      protocol := l.protocol
      action := l.action
      dataSize := some (l.dataSize.getD 0)
      duration := l.duration }
  ({ st with networkLogs := st.networkLogs ++ [row], nextLogId := st.nextLogId + 1 }, row)

/-- `createAlert`: INSERT assigning id and timestamp; `isResolved` and
`resolvedAt` take their column defaults. -/
def createAlert (st : StoreState) (a : InsertAlert) (now : Int) :
    StoreState × Alert :=
  let row : Alert :=
    { id := st.nextAlertId
      timestamp := now
      severity := a.severity
      type := a.type
      title := a.title
      description := a.description
      sourceIp := a.sourceIp
      isResolved := false
      resolvedAt := none }
  ({ st with alerts := st.alerts ++ [row], nextAlertId := st.nextAlertId + 1 }, row)

/-- `createTrafficMetric`: INSERT assigning id and timestamp. -/
def createTrafficMetric (st : StoreState) (m : InsertTrafficMetric) (now : Int) :
    StoreState × TrafficMetric :=
  let row : TrafficMetric :=
    { id := st.nextMetricId
      timestamp := now
      totalTraffic := m.totalTraffic
      activeConnections := m.activeConnections
      blockedRequests := m.blockedRequests
      protocolDistribution := m.protocolDistribution
      topDestinations := m.topDestinations }
  ({ st with trafficMetrics := st.trafficMetrics ++ [row], nextMetricId := st.nextMetricId + 1 }, row)

/-- Comparison used to model `orderBy(desc(table.timestamp))`. -/
def tsDescLog (a b : NetworkLog) : Prop := b.timestamp ≤ a.timestamp

instance : DecidableRel tsDescLog := fun a b => inferInstanceAs (Decidable (b.timestamp ≤ a.timestamp))

instance : IsTotal NetworkLog tsDescLog := ⟨fun a b => le_total b.timestamp a.timestamp⟩

instance : IsTrans NetworkLog tsDescLog := ⟨fun _ _ _ h h2 => le_trans h2 h⟩

def tsDescAlert (a b : Alert) : Prop := b.timestamp ≤ a.timestamp

instance : DecidableRel tsDescAlert := fun a b => inferInstanceAs (Decidable (b.timestamp ≤ a.timestamp))

instance : IsTotal Alert tsDescAlert := ⟨fun a b => le_total b.timestamp a.timestamp⟩

instance : IsTrans Alert tsDescAlert := ⟨fun _ _ _ h h2 => le_trans h2 h⟩

def tsDescMetric (a b : TrafficMetric) : Prop := b.timestamp ≤ a.timestamp

instance : DecidableRel tsDescMetric := fun a b => inferInstanceAs (Decidable (b.timestamp ≤ a.timestamp))

instance : IsTotal TrafficMetric tsDescMetric := ⟨fun a b => le_total b.timestamp a.timestamp⟩

instance : IsTrans TrafficMetric tsDescMetric := ⟨fun _ _ _ h h2 => le_trans h2 h⟩

/-- `getNetworkLogs(limit = 50, offset = 0)`: ORDER BY timestamp DESC,
OFFSET, LIMIT. -/
def getNetworkLogs (st : StoreState) (limit : Nat := 50) (offset : Nat := 0) :
    List NetworkLog :=
  ((st.networkLogs.insertionSort tsDescLog).drop offset).take limit

/-- `getNetworkLogsByTimeRange(startTime, endTime)`: WHERE startTime ≤
timestamp ≤ endTime, ORDER BY timestamp DESC. -/
def getNetworkLogsByTimeRange (st : StoreState) (startTime endTime : Int) :
    List NetworkLog :=
  (st.networkLogs.filter fun l =>
    decide (startTime ≤ l.timestamp) && decide (l.timestamp ≤ endTime)).insertionSort tsDescLog

/-- `getActiveAlerts()`: WHERE isResolved = false, ORDER BY timestamp DESC. -/
def getActiveAlerts (st : StoreState) : List Alert :=
  (st.alerts.filter fun a => !a.isResolved).insertionSort tsDescAlert

/-- `resolveAlert(id)`: UPDATE alerts SET isResolved = true, resolvedAt =
new Date() WHERE id = id. Matches zero or more rows; never fails. -/
def resolveAlert (st : StoreState) (id : Nat) (now : Int) : StoreState :=
  { st with alerts := st.alerts.map fun a =>
      if a.id = id then { a with isResolved := true, resolvedAt := some now } else a }

/-- `getActiveConnections()`: WHERE isActive = true (ORDER BY lastActivity
DESC; the order is irrelevant to every caller verified here, which only
takes the length). -/
def getActiveConnections (st : StoreState) : List Connection :=
  st.connections.filter fun c => c.isActive

/-- `getLatestTrafficMetrics()`: ORDER BY timestamp DESC LIMIT 1. -/
def getLatestTrafficMetrics (st : StoreState) : Option TrafficMetric :=
  (st.trafficMetrics.insertionSort tsDescMetric).head?

/-- Shape of `getDashboardStats()`. -/
structure DashboardStats where
  totalTraffic : String
  activeConnections : Int
  blockedRequests : Int
  activeAlerts : Nat
  deriving Repr, DecidableEq

/-- `getDashboardStats()`: latest metric row (fields defaulted when there is
none) plus the live count of unresolved alerts. -/
def getDashboardStats (st : StoreState) : DashboardStats :=
  let latest := getLatestTrafficMetrics st
  { totalTraffic := (latest.map (·.totalTraffic)).getD "0"
    activeConnections := (latest.map (·.activeConnections)).getD 0
    blockedRequests := (latest.map (·.blockedRequests)).getD 0
    activeAlerts := (st.alerts.filter fun a => !a.isResolved).length }

/-! ### Alert resolution (`resolveAlert` store op and its route) -/

/-- Reply of the `PATCH /api/alerts/:id/resolve` route: `res.json({success:
true})` on the happy path, `res.status(500)` only when the store call
throws. -/
inductive RouteReply where
  | success
  | serverError
  deriving Repr, DecidableEq

/-- The resolve route: `storage.resolveAlert(id)` (an unconditional UPDATE,
which cannot fail on a missing or already-resolved id) followed by the
success reply. -/
def resolveAlertRoute (st : StoreState) (id : Nat) (now : Int) :
    StoreState × RouteReply :=
  (resolveAlert st id now, RouteReply.success)

/-! ### Realtime gateway (server/routes.ts) -/

/-- The `ws` library's readyState values. -/
inductive ReadyState where
  | CONNECTING
  | OPEN
  | CLOSING
  | CLOSED
  deriving Repr, DecidableEq

/-- One client socket in `wss.clients`. -/
structure Client where
  id : Nat
  readyState : ReadyState
  deriving Repr, DecidableEq

/-- Events emitted by the `NetworkMonitor` (EventEmitter) and fanned out by
`registerRoutes`: `networkLog`, `alert`, `metricsUpdate`. -/
inductive BusEvent where
  | networkLog (log : NetworkLog)
  | alert (a : Alert)
  | metricsUpdate (m : TrafficMetric)
  deriving Repr, DecidableEq

/-- `broadcast(wss, message)`: iterate `wss.clients`; send the message to a
client iff `client.readyState === WebSocket.OPEN`, in iteration order. The
result is the list of performed sends as (client id, delivered event). -/
def broadcast (clients : List Client) (ev : BusEvent) : List (Nat × BusEvent) :=
  clients.filterMap fun c =>
    if c.readyState = ReadyState.OPEN then some (c.id, ev) else none

/-- Shape of the one-time snapshot message `{type: "initialData", data:
{stats, alerts, logs}}`. -/
structure InitialDataMessage where
  type : String
  stats : DashboardStats
  alerts : List Alert
  logs : List NetworkLog
  deriving Repr, DecidableEq

/-- `sendInitialData(ws)`: read dashboard stats, active alerts and the most
recent 10 logs, then send one snapshot message iff the socket is still
Open. The result is the list of messages actually sent. -/
def sendInitialData (st : StoreState) (ws : Client) : List InitialDataMessage :=
  if ws.readyState = ReadyState.OPEN then
    [{ type := "initialData"
       stats := getDashboardStats st
       alerts := getActiveAlerts st
       logs := getNetworkLogs st 10 }]
  else []

/-- Sample stored log row used by the concrete witness instantiations. -/
def mkLog (ip : String) (size : Int) : NetworkLog :=
  { id := 0, timestamp := 0, sourceIp := ip, protocol := "TCP",
    action := "ALLOW", dataSize := some size }

/-! ### Counter objects (`{ [key: string]: number }`) -/

/-- `counts[k] = (counts[k] || 0) + 1` on a JS object: increment the (by
construction unique) binding of `k` in place, or append a fresh binding at
the end — string keys of a JS object iterate in insertion order. -/
def bumpCount : List (String × Nat) → String → List (String × Nat)
  | [], k => [(k, 1)]
  | p :: rest, k =>
    if p.1 == k then (p.1, p.2 + 1) :: rest else p :: bumpCount rest k

/-- Build the counter object of a key sequence, starting from `{}`. -/
def countsBy (keys : List String) : List (String × Nat) :=
  keys.foldl bumpCount []

/-- `counts[k] || 0`. -/
def getCount : List (String × Nat) → String → Nat
  | [], _ => 0
  | p :: rest, k => if p.1 == k then p.2 else getCount rest k

/-! ### Anomaly detection (`NetworkMonitor.detectAnomalies`) -/

/-- `log.dataSize || 0` on the nullable column. -/
def dataSizeOrZero (l : NetworkLog) : Int := l.dataSize.getD 0

/-- `recentLogs.reduce((sum, log) => sum + (log.dataSize || 0), 0)`. -/
def totalData (logs : List NetworkLog) : Int :=
  logs.foldl (fun s l => s + dataSizeOrZero l) 0

/-- The `ipCounts` object: occurrences of each `sourceIp` in the window. -/
def ipCounts (logs : List NetworkLog) : List (String × Nat) :=
  countsBy (logs.map (·.sourceIp))

/-- Number of window logs from a given source address. -/
def countIp (logs : List NetworkLog) (ip : String) : Nat :=
  (logs.filter fun l => l.sourceIp == ip).length

/-- The RAPID_CONNECTIONS alert payload built for a qualifying source. -/
def rapidConnectionAlert (ip : String) (count : Nat) : InsertAlert :=
  { severity := "MEDIUM"
    type := "RAPID_CONNECTIONS"
    title := "Rapid Connection Pattern Detected"
    description := "IP " ++ ip ++ " made " ++ toString count
      ++ " connections in the last 5 minutes"
    sourceIp := some ip }

/-- The rapid-connections rule: one alert per `Object.entries(ipCounts)`
entry with count > 20, in object order. -/
def rapidConnectionAlerts (logs : List NetworkLog) : List InsertAlert :=
  (ipCounts logs).filterMap fun p =>
    if 20 < p.2 then some (rapidConnectionAlert p.1 p.2) else none

/-- Two-digit zero-padded decimal rendering of `n % 100`. -/
def pad2 (n : Nat) : String :=
  if n < 10 then "0" ++ toString n else toString n

/-- JS `(n / (1024 * 1024)).toFixed(2)` for a nonnegative integer byte
count `n` below 2^53: the quotient `n / 2^20` is then an exactly
represented double, and `toFixed(2)` prints the integer closest to
`100 * n / 2^20`, ties resolved upward, over two decimal places. -/
def toFixed2MB (n : Int) : String :=
  let h : Int := (n * 100 * 2 + 1048576) / (2 * 1048576)
  toString (h / 100) ++ "." ++ pad2 (h % 100).toNat

/-- The HIGH_BANDWIDTH alert payload built for a window total. -/
def highBandwidthAlert (total : Int) : InsertAlert :=
  { severity := "MEDIUM"
    type := "HIGH_BANDWIDTH"
    title := "High Bandwidth Usage Detected"
    description := toFixed2MB total ++ " MB transferred in the last 5 minutes"
    sourceIp := none }

/-- Alert payloads created by one `detectAnomalies` cycle over the 5-minute
window, in creation order: the rapid-connections alerts, then the
high-bandwidth alert when the strict 100 MiB threshold is exceeded. -/
def detectAnomaliesAlerts (logs : List NetworkLog) : List InsertAlert :=
  rapidConnectionAlerts logs
    ++ (if 100 * 1024 * 1024 < totalData logs
        then [highBandwidthAlert (totalData logs)] else [])

/-! ### Metrics rollup (`NetworkMonitor.aggregateMetrics`) -/

/-- JS truthiness test `if (log.destinationHost)`: the key under which a
log is counted in `destinationCounts`, `none` when the column is null or
the empty string. -/
def destKey (l : NetworkLog) : Option String :=
  match l.destinationHost with
  | some h => if h == "" then none else some h
  | none => none

/-- The metric payload computed by one `aggregateMetrics` cycle from the
1-hour window and the active connections. -/
def aggregateMetricsInsert (recentLogs : List NetworkLog)
    (activeConns : List Connection) : InsertTrafficMetric :=
  { totalTraffic := toString (totalData recentLogs)
    activeConnections := (activeConns.length : Int)
    blockedRequests := ((recentLogs.filter fun l => l.action == "BLOCK").length : Int)
    protocolDistribution := countsBy (recentLogs.map (·.protocol))
    topDestinations := countsBy (recentLogs.filterMap destKey) }

/-- One full `aggregateMetrics` cycle against the store: read the 1-hour
window and the active connections, persist one new metric row. -/
def aggregateMetricsStep (st : StoreState) (now : Int) :
    StoreState × TrafficMetric :=
  let recent := getNetworkLogsByTimeRange st (now - 60 * 60 * 1000) now
  let active := getActiveConnections st
  createTrafficMetric st (aggregateMetricsInsert recent active) now

/-! ### Fallible store calls and the three periodic tasks -/

/-- Context threaded through a periodic task: the store, the events emitted
so far, the number of errors logged by catch blocks, and the index of the
next store call (consumed by the failure oracle). -/
structure EngineCtx where
  st : StoreState
  events : List BusEvent := []
  errorsLogged : Nat := 0
  calls : Nat := 0
  deriving Repr, DecidableEq

/-- A `createNetworkLog` call that may fail; the oracle decides, per call
index, whether the store throws. -/
def createNetworkLogE (ok : Bool) (st : StoreState) (l : InsertNetworkLog)
    (now : Int) : Except Unit (StoreState × NetworkLog) :=
  if ok then Except.ok (createNetworkLog st l now) else Except.error ()

/-- A `createAlert` call that may fail. -/
def createAlertE (ok : Bool) (st : StoreState) (a : InsertAlert) (now : Int) :
    Except Unit (StoreState × Alert) :=
  if ok then Except.ok (createAlert st a now) else Except.error ()

/-- A `getNetworkLogsByTimeRange` call that may fail. -/
def getNetworkLogsByTimeRangeE (ok : Bool) (st : StoreState)
    (startTime endTime : Int) : Except Unit (List NetworkLog) :=
  if ok then Except.ok (getNetworkLogsByTimeRange st startTime endTime)
  else Except.error ()

/-- A `getActiveConnections` call that may fail. -/
def getActiveConnectionsE (ok : Bool) (st : StoreState) :
    Except Unit (List Connection) :=
  if ok then Except.ok (getActiveConnections st) else Except.error ()

/-- A `createTrafficMetric` call that may fail. -/
def createTrafficMetricE (ok : Bool) (st : StoreState)
    (m : InsertTrafficMetric) (now : Int) :
    Except Unit (StoreState × TrafficMetric) :=
  if ok then Except.ok (createTrafficMetric st m now) else Except.error ()

/-- The per-record loop of `simulateNetworkTraffic`: each iteration wraps
its own `createNetworkLog` + emit in a try/catch (the `match`), so a failed
write logs an error and the loop continues with the next planned record. -/
def simLoop (oracle : Nat → Bool) (now : Int) :
    List InsertNetworkLog → EngineCtx → EngineCtx
  | [], c => c
  | l :: rest, c =>
    match createNetworkLogE (oracle c.calls) c.st l now with
    | Except.ok (st2, saved) =>
      simLoop oracle now rest
        { c with st := st2, calls := c.calls + 1,
                 events := c.events ++ [BusEvent.networkLog saved] }
    | Except.error _ =>
      simLoop oracle now rest
        { c with calls := c.calls + 1, errorsLogged := c.errorsLogged + 1 }

/-- The suspicious-traffic tail of `simulateNetworkTraffic`: one try/catch
around the blocked-log write and its follow-up alert write — a failing log
write skips the alert, a failing alert write keeps the already-saved log. -/
def suspiciousPart (oracle : Nat → Bool) (now : Int)
    (susp : Option (InsertNetworkLog × InsertAlert)) (c : EngineCtx) :
    EngineCtx :=
  match susp with
  | none => c
  | some (sl, sa) =>
    match createNetworkLogE (oracle c.calls) c.st sl now with
    | Except.error _ =>
      { c with calls := c.calls + 1, errorsLogged := c.errorsLogged + 1 }
    | Except.ok (st2, savedLog) =>
      let c2 : EngineCtx :=
        { c with st := st2, calls := c.calls + 1,
                 events := c.events ++ [BusEvent.networkLog savedLog] }
      match createAlertE (oracle c2.calls) c2.st sa now with
      | Except.error _ =>
        { c2 with calls := c2.calls + 1, errorsLogged := c2.errorsLogged + 1 }
      | Except.ok (st3, savedAlert) =>
        { c2 with st := st3, calls := c2.calls + 1,
                  events := c2.events ++ [BusEvent.alert savedAlert] }

/-- One `simulateNetworkTraffic` cycle, parametrised by the planned normal
records and the optional suspicious pair (standing in for the pseudo-random
generation), and by the store-failure oracle. The `Except` codomain is the
async task boundary as the scheduler sees it: an uncaught store failure
would surface as `Except.error`. -/
def simulateNetworkTrafficTask (oracle : Nat → Bool) (now : Int)
    (planned : List InsertNetworkLog)
    (susp : Option (InsertNetworkLog × InsertAlert)) (c : EngineCtx) :
    Except Unit EngineCtx :=
  Except.ok (suspiciousPart oracle now susp (simLoop oracle now planned c))

/-- The per-alert persistence loop inside `detectAnomalies`: no
per-iteration catch, so the first failing `createAlert` aborts the
remaining writes, carrying the partially updated context out to the
surrounding catch. -/
def createAlertsLoop (oracle : Nat → Bool) (now : Int) :
    List InsertAlert → EngineCtx → Except EngineCtx EngineCtx
  | [], c => Except.ok c
  | a :: rest, c =>
    match createAlertE (oracle c.calls) c.st a now with
    | Except.ok (st2, saved) =>
      createAlertsLoop oracle now rest
        { c with st := st2, calls := c.calls + 1,
                 events := c.events ++ [BusEvent.alert saved] }
    | Except.error _ =>
      Except.error { c with calls := c.calls + 1 }

/-- The body of `detectAnomalies` inside its try: read the 5-minute window,
then persist and publish every rule alert. -/
def detectAnomaliesBody (oracle : Nat → Bool) (now : Int) (c : EngineCtx) :
    Except EngineCtx EngineCtx :=
  match getNetworkLogsByTimeRangeE (oracle c.calls) c.st
      (now - 5 * 60 * 1000) now with
  | Except.error _ => Except.error { c with calls := c.calls + 1 }
  | Except.ok recent =>
    createAlertsLoop oracle now (detectAnomaliesAlerts recent)
      { c with calls := c.calls + 1 }

/-- One `detectAnomalies` cycle: the whole body sits in one try/catch, so
any store failure is logged at the catch and nothing escapes the task. -/
def detectAnomaliesTask (oracle : Nat → Bool) (now : Int) (c : EngineCtx) :
    Except Unit EngineCtx :=
  Except.ok (match detectAnomaliesBody oracle now c with
    | Except.ok c2 => c2
    | Except.error c2 => { c2 with errorsLogged := c2.errorsLogged + 1 })

/-- The body of `aggregateMetrics` inside its try: two reads, one write. -/
def aggregateMetricsBody (oracle : Nat → Bool) (now : Int) (c : EngineCtx) :
    Except EngineCtx EngineCtx :=
  match getNetworkLogsByTimeRangeE (oracle c.calls) c.st
      (now - 60 * 60 * 1000) now with
  | Except.error _ => Except.error { c with calls := c.calls + 1 }
  | Except.ok recent =>
    match getActiveConnectionsE (oracle (c.calls + 1)) c.st with
    | Except.error _ => Except.error { c with calls := c.calls + 2 }
    | Except.ok active =>
      match createTrafficMetricE (oracle (c.calls + 2)) c.st
          (aggregateMetricsInsert recent active) now with
      | Except.error _ => Except.error { c with calls := c.calls + 3 }
      | Except.ok (st2, saved) =>
        Except.ok { c with st := st2, calls := c.calls + 3,
                           events := c.events ++ [BusEvent.metricsUpdate saved] }

/-- One `aggregateMetrics` cycle with its single try/catch. -/
def aggregateMetricsTask (oracle : Nat → Bool) (now : Int) (c : EngineCtx) :
    Except Unit EngineCtx :=
  Except.ok (match aggregateMetricsBody oracle now c with
    | Except.ok c2 => c2
    | Except.error c2 => { c2 with errorsLogged := c2.errorsLogged + 1 })

/-- The planned records of a synthesis cycle whose writes the oracle lets
succeed, counting call indices from `base`. -/
def keptPlanned (oracle : Nat → Bool) (base : Nat) :
    List InsertNetworkLog → List InsertNetworkLog
  | [] => []
  | l :: rest =>
    if oracle base then l :: keptPlanned oracle (base + 1) rest
    else keptPlanned oracle (base + 1) rest

/-! ### Insert validation (`insertNetworkLogSchema`, shared/schema.ts) -/

/-- A candidate body for `POST /api/network-logs` with every field
optional, as zod sees it before validation (fields already of the right
primitive type; zod's type checks are represented by this typing). -/
structure NetworkLogInput where
  sourceIp : Option String := none
  destinationIp : Option String := none
  destinationHost : Option String := none
  destinationPort : Option Int := none
  protocol : Option String := none
  action : Option String := none
  dataSize : Option Int := none
  duration : Option Int := none
  deriving Repr, DecidableEq

/-- Embedding of `insertNetworkLogSchema.parse`: the schema is
`createInsertSchema(networkLogs).omit({id, timestamp})`, so it requires
exactly the notNull default-less columns (sourceIp, protocol, action) and
bounds the varchar columns by their declared widths. It imposes no
enumeration on `action` and no lower bound on `dataSize`. -/
def insertNetworkLogSchemaParse (inp : NetworkLogInput) :
    Option InsertNetworkLog :=
  match inp.sourceIp, inp.protocol, inp.action with
  | some sip, some proto, some act =>
    if decide (sip.length ≤ 45) && decide (proto.length ≤ 10)
        && decide (act.length ≤ 10)
        && ((inp.destinationIp.map fun s => decide (s.length ≤ 45)).getD true) then
      some { sourceIp := sip
             destinationIp := inp.destinationIp
             destinationHost := inp.destinationHost
             destinationPort := inp.destinationPort
             protocol := proto
             action := act
             dataSize := inp.dataSize
             duration := inp.duration }
    else none
  | _, _, _ => none

end ElasticMonitor

namespace ElasticMonitor

/-- Unfolding of `broadcast` over the head of the client list. -/
theorem broadcast_cons (c : Client) (tl : List Client) (ev : BusEvent) :
    broadcast (c :: tl) ev
      = (if c.readyState = ReadyState.OPEN then [(c.id, ev)] else [])
          ++ broadcast tl ev := by
  by_cases hop : c.readyState = ReadyState.OPEN <;>
    simp [broadcast, List.filterMap_cons, hop]

/-- A client not listed gets no sends. -/
theorem broadcast_filter_not_mem (tl : List Client) (ev : BusEvent) (i : Nat)
    (hni : i ∉ tl.map Client.id) :
    ((broadcast tl ev).filter fun s => s.1 = i).length = 0 := by
  rw [List.length_eq_zero, List.filter_eq_nil_iff]
  intro s hs
  rcases List.mem_filterMap.mp hs with ⟨c2, hc2, hsome⟩
  by_cases hop : c2.readyState = ReadyState.OPEN
  · rw [if_pos hop] at hsome
    simp only [Option.some.injEq] at hsome
    subst hsome
    simp only [decide_eq_true_eq]
    intro hbad
    exact hni (hbad ▸ List.mem_map_of_mem Client.id hc2)
  · simp [hop] at hsome

/-- C1: every Open connection gets exactly one copy of the published event,
every non-Open connection gets zero copies, and every send delivered by the
broadcast carries exactly the published event. -/
theorem broadcast_fanout (clients : List Client) (ev : BusEvent) (c : Client)
    (hmem : c ∈ clients) (hids : (clients.map Client.id).Nodup) :
    ((broadcast clients ev).filter fun s => s.1 = c.id).length
        = (if c.readyState = ReadyState.OPEN then 1 else 0)
      ∧ ∀ s ∈ broadcast clients ev, s.2 = ev := by
  constructor
  · induction clients with
    | nil => cases hmem
    | cons hd tl ih =>
      simp only [List.map_cons, List.nodup_cons] at hids
      rw [broadcast_cons, List.filter_append, List.length_append]
      rcases List.mem_cons.mp hmem with heq | htl
      · subst heq
        have hno := broadcast_filter_not_mem tl ev c.id hids.1
        by_cases hop : c.readyState = ReadyState.OPEN <;>
          simp [hop, List.filter_cons, hno]
      · have hrec := ih htl hids.2
        have hne : hd.id ≠ c.id := by
          intro hbad
          exact hids.1 (hbad ▸ List.mem_map_of_mem Client.id htl)
        by_cases hop : hd.readyState = ReadyState.OPEN <;>
          simp [hop, List.filter_cons, hne, hrec]
  · intro s hs
    rcases List.mem_filterMap.mp hs with ⟨c2, _, hsome⟩
    by_cases hop : c2.readyState = ReadyState.OPEN
    · rw [if_pos hop] at hsome
      simp only [Option.some.injEq] at hsome
      subst hsome; rfl
    · simp [hop] at hsome

/-- Concrete instantiation of `broadcast_fanout`: two Open clients and one
Closed client; the Open client with id 1 receives exactly one copy. -/
theorem broadcast_fanout_witness :
    ((broadcast
        [⟨1, ReadyState.OPEN⟩, ⟨2, ReadyState.CLOSED⟩, ⟨3, ReadyState.OPEN⟩]
        (BusEvent.alert ⟨1, 0, "HIGH", "T", "t", "d", none, false, none⟩)).filter
          fun s => s.1 = 1).length = 1 := by
  have h := broadcast_fanout
    [⟨1, ReadyState.OPEN⟩, ⟨2, ReadyState.CLOSED⟩, ⟨3, ReadyState.OPEN⟩]
    (BusEvent.alert ⟨1, 0, "HIGH", "T", "t", "d", none, false, none⟩)
    ⟨1, ReadyState.OPEN⟩ (by decide) (by decide)
  simpa using h.1

/-- After `resolveAlert`, the targeted rows are resolved with `resolvedAt`
set to the call time. -/
theorem resolveAlert_target (st : StoreState) (id : Nat) (now : Int) :
    ∀ a ∈ (resolveAlert st id now).alerts,
      a.id = id → a.isResolved = true ∧ a.resolvedAt = some now := by
  intro a ha hid
  rcases List.mem_map.mp ha with ⟨a0, _, heq⟩
  by_cases h0 : a0.id = id
  · simp only [h0, if_pos rfl] at heq
    subst heq; exact ⟨rfl, rfl⟩
  · simp only [if_neg h0] at heq
    subst heq; exact absurd hid h0

/-- C9: resolving the same alert twice leaves it resolved, and the second
route call still replies success (resolution is idempotent on the flag). -/
theorem resolveAlert_twice (st : StoreState) (id : Nat) (t1 t2 : Int) :
    ((resolveAlertRoute (resolveAlert st id t1) id t2).2 = RouteReply.success)
      ∧ ∀ a ∈ (resolveAlert (resolveAlert st id t1) id t2).alerts,
          a.id = id → a.isResolved = true := by
  refine ⟨rfl, fun a ha hid => ?_⟩
  exact (resolveAlert_target (resolveAlert st id t1) id t2 a ha hid).1

/-- Concrete instantiation of `resolveAlert_twice`: a one-alert store,
resolved twice; the row stays resolved and the reply is success. -/
theorem resolveAlert_twice_witness :
    ((resolveAlertRoute
        (resolveAlert { alerts := [{ id := 1, timestamp := 0, severity := "MEDIUM",
                                     type := "RAPID_CONNECTIONS", title := "t",
                                     description := "d" }] } 1 100) 1 200).2
       = RouteReply.success)
      ∧ Alert.isResolved { id := 1, timestamp := 0, severity := "MEDIUM",
                           type := "RAPID_CONNECTIONS", title := "t",
                           description := "d", sourceIp := none,
                           isResolved := true, resolvedAt := some 200 }
          = true := by
  have h := resolveAlert_twice
    { alerts := [{ id := 1, timestamp := 0, severity := "MEDIUM",
                   type := "RAPID_CONNECTIONS", title := "t", description := "d" }] }
    1 100 200
  exact ⟨h.1, h.2 _ (by decide) rfl⟩

/-- C10: resolving an id that matches no stored alert leaves the store
unchanged and the route replies success. -/
theorem resolveAlert_missing_id (st : StoreState) (id : Nat) (now : Int)
    (h : ∀ a ∈ st.alerts, a.id ≠ id) :
    resolveAlert st id now = st
      ∧ (resolveAlertRoute st id now).2 = RouteReply.success := by
  refine ⟨?_, rfl⟩
  have hmap : ∀ l : List Alert, (∀ a ∈ l, a.id ≠ id) →
      (l.map fun a =>
        if a.id = id then { a with isResolved := true, resolvedAt := some now } else a)
      = l := by
    intro l hl
    induction l with
    | nil => rfl
    | cons hd tl ih =>
      simp only [List.map_cons]
      rw [if_neg (hl hd (List.mem_cons_self hd tl)),
        ih fun a ha => hl a (List.mem_cons_of_mem hd ha)]
  simp only [resolveAlert, hmap st.alerts h]

/-- Concrete instantiation of `resolveAlert_missing_id`: resolving id 99 in
a store whose only alert has id 1 changes nothing. -/
theorem resolveAlert_missing_id_witness :
    resolveAlert { alerts := [{ id := 1, timestamp := 0, severity := "MEDIUM",
                                type := "RAPID_CONNECTIONS", title := "t",
                                description := "d" }] } 99 5
      = { alerts := [{ id := 1, timestamp := 0, severity := "MEDIUM",
                       type := "RAPID_CONNECTIONS", title := "t",
                       description := "d" }] } :=
  (resolveAlert_missing_id _ 99 5 (by decide)).1

/-- Counterexample to C7 as stated: the second `resolveAlert` on the same
alert overwrites `resolvedAt` (100 becomes 200), so the resolved-at
timestamp is not immutable after resolution. -/
theorem resolveAlert_resolvedAt_overwritten :
    ((resolveAlert { alerts := [{ id := 1, timestamp := 0, severity := "MEDIUM",
                                  type := "RAPID_CONNECTIONS", title := "t",
                                  description := "d" }] } 1 100).alerts.map
        Alert.resolvedAt = [some 100])
      ∧ ((resolveAlert
            (resolveAlert { alerts := [{ id := 1, timestamp := 0, severity := "MEDIUM",
                                         type := "RAPID_CONNECTIONS", title := "t",
                                         description := "d" }] } 1 100) 1 200).alerts.map
          Alert.resolvedAt = [some 200])
      ∧ (some (200 : Int) ≠ some (100 : Int)) :=
  ⟨rfl, rfl, by decide⟩

/-- C7 amended: once resolved, an alert stays resolved and keeps a non-null
`resolvedAt` through any later `resolveAlert` call, and the flag never
returns to false — but a later resolve of the same id overwrites
`resolvedAt` with the new call time. -/
theorem resolveAlert_monotone (st : StoreState) (id : Nat) (now : Int)
    (hinv : ∀ a ∈ st.alerts, a.isResolved = true → a.resolvedAt ≠ none) :
    (∀ a ∈ (resolveAlert st id now).alerts, a.isResolved = true → a.resolvedAt ≠ none)
      ∧ (∀ a0 ∈ st.alerts, a0.isResolved = true →
          ∃ a ∈ (resolveAlert st id now).alerts, a.id = a0.id ∧ a.isResolved = true)
      ∧ (∀ a ∈ (resolveAlert st id now).alerts,
          a.id = id → a.isResolved = true ∧ a.resolvedAt = some now) := by
  refine ⟨?_, ?_, resolveAlert_target st id now⟩
  · intro a ha hres
    rcases List.mem_map.mp ha with ⟨a0, ha0, heq⟩
    by_cases h0 : a0.id = id
    · simp only [h0, if_pos rfl] at heq
      subst heq; simp
    · simp only [if_neg h0] at heq
      subst heq; exact hinv a0 ha0 hres
  · intro a0 ha0 hres
    by_cases h0 : a0.id = id
    · refine ⟨{ a0 with isResolved := true, resolvedAt := some now }, ?_, rfl, rfl⟩
      simp only [resolveAlert]
      exact List.mem_map.mpr ⟨a0, ha0, by rw [if_pos h0]⟩
    · refine ⟨a0, ?_, rfl, hres⟩
      simp only [resolveAlert]
      exact List.mem_map.mpr ⟨a0, ha0, by rw [if_neg h0]⟩

/-! ### Counter-object lemmas -/

theorem getCount_bumpCount_self (m : List (String × Nat)) (k : String) :
    getCount (bumpCount m k) k = getCount m k + 1 := by
  induction m with
  | nil => simp [bumpCount, getCount]
  | cons p rest ih =>
    by_cases h : p.1 == k
    · simp [bumpCount, getCount, h]
    · simp [bumpCount, getCount, h, ih]

theorem getCount_bumpCount_other (m : List (String × Nat)) (k k2 : String)
    (hne : k ≠ k2) : getCount (bumpCount m k) k2 = getCount m k2 := by
  induction m with
  | nil => simp [bumpCount, getCount, hne]
  | cons p rest ih =>
    by_cases h : p.1 == k
    · have hk : p.1 = k := by simpa using h
      have : (p.1 == k2) = false := by simp [hk, hne]
      simp [bumpCount, getCount, h, this]
    · by_cases h2 : p.1 == k2 <;> simp [bumpCount, getCount, h, h2, ih]

theorem getCount_foldl_bumpCount (keys : List String)
    (m : List (String × Nat)) (k : String) :
    getCount (keys.foldl bumpCount m) k = getCount m k + keys.count k := by
  induction keys generalizing m with
  | nil => simp
  | cons a keys ih =>
    rw [List.foldl_cons, ih]
    by_cases h : a = k
    · subst h
      rw [getCount_bumpCount_self]
      simp [List.count_cons]
      omega
    · rw [getCount_bumpCount_other m a k h]
      have : (k == a) = false := by
        simp only [beq_eq_false_iff_ne, ne_eq]
        exact fun hk => h hk.symm
      simp [List.count_cons, this, h]

theorem getCount_countsBy (keys : List String) (k : String) :
    getCount (countsBy keys) k = keys.count k := by
  simpa [countsBy, getCount] using getCount_foldl_bumpCount keys [] k

theorem keys_bumpCount (m : List (String × Nat)) (k : String) :
    (bumpCount m k).map Prod.fst
      = if k ∈ m.map Prod.fst then m.map Prod.fst else m.map Prod.fst ++ [k] := by
  induction m with
  | nil => simp [bumpCount]
  | cons p rest ih =>
    by_cases h : p.1 == k
    · have hk : p.1 = k := by simpa using h
      simp [bumpCount, h, hk]
    · have hk : ¬k = p.1 := by
        intro hkk
        exact absurd (by simp [hkk]) h
      by_cases hmem : k ∈ rest.map Prod.fst <;>
        simp [bumpCount, h, ih, hmem, hk]

theorem mem_keys_bumpCount (m : List (String × Nat)) (a k : String) :
    k ∈ (bumpCount m a).map Prod.fst ↔ k ∈ m.map Prod.fst ∨ k = a := by
  rw [keys_bumpCount]
  by_cases hmem : a ∈ m.map Prod.fst
  · rw [if_pos hmem]
    constructor
    · exact Or.inl
    · rintro (h | rfl)
      · exact h
      · exact hmem
  · rw [if_neg hmem]
    simp

theorem nodup_keys_bumpCount (m : List (String × Nat)) (k : String)
    (h : (m.map Prod.fst).Nodup) : ((bumpCount m k).map Prod.fst).Nodup := by
  rw [keys_bumpCount]
  by_cases hmem : k ∈ m.map Prod.fst
  · rwa [if_pos hmem]
  · rw [if_neg hmem]
    simp only [List.nodup_append, List.nodup_cons, List.not_mem_nil,
      not_false_iff, List.nodup_nil, and_true, true_and]
    refine ⟨h, ?_⟩
    intro a ha hb
    simp only [List.mem_singleton] at hb
    exact hmem (hb ▸ ha)

theorem nodup_keys_foldl_bumpCount (keys : List String)
    (m : List (String × Nat)) (h : (m.map Prod.fst).Nodup) :
    ((keys.foldl bumpCount m).map Prod.fst).Nodup := by
  induction keys generalizing m with
  | nil => exact h
  | cons a keys ih => exact ih (bumpCount m a) (nodup_keys_bumpCount m a h)

theorem nodup_keys_countsBy (keys : List String) :
    ((countsBy keys).map Prod.fst).Nodup :=
  nodup_keys_foldl_bumpCount keys [] (by simp)

theorem mem_keys_foldl_bumpCount (keys : List String)
    (m : List (String × Nat)) (k : String) :
    k ∈ (keys.foldl bumpCount m).map Prod.fst
      ↔ k ∈ m.map Prod.fst ∨ k ∈ keys := by
  induction keys generalizing m with
  | nil => simp
  | cons a keys ih =>
    rw [List.foldl_cons, ih, mem_keys_bumpCount]
    simp only [List.mem_cons]
    tauto

theorem mem_keys_countsBy (keys : List String) (k : String) :
    k ∈ (countsBy keys).map Prod.fst ↔ k ∈ keys := by
  simpa [countsBy] using mem_keys_foldl_bumpCount keys [] k

theorem filter_key_of_nodup (m : List (String × Nat)) (k : String)
    (h : (m.map Prod.fst).Nodup) :
    m.filter (fun p => p.1 == k)
      = if k ∈ m.map Prod.fst then [(k, getCount m k)] else [] := by
  induction m with
  | nil => simp
  | cons p rest ih =>
    simp only [List.map_cons, List.nodup_cons] at h
    by_cases hpk : p.1 == k
    · have hk : p.1 = k := by simpa using hpk
      have hnm : k ∉ rest.map Prod.fst := hk ▸ h.1
      rw [List.filter_cons, if_pos hpk, ih h.2, if_neg hnm]
      have hm : k ∈ (p :: rest).map Prod.fst := by simp [hk]
      rw [if_pos hm]
      have hg : getCount (p :: rest) k = p.2 := by simp [getCount, hpk]
      rw [hg]
      obtain ⟨a, b⟩ := p
      simp only at hk
      rw [hk]
    · have hk : ¬k = p.1 := by
        intro hkk
        exact absurd (by simp [hkk]) hpk
      rw [List.filter_cons, if_neg (by simpa using hpk), ih h.2]
      have hm : (k ∈ (p :: rest).map Prod.fst) ↔ k ∈ rest.map Prod.fst := by
        simp [hk]
      by_cases hmem : k ∈ rest.map Prod.fst <;>
        simp [hmem, hm, getCount, hpk, hk]

theorem mem_countsBy_val (keys : List String) (k : String) (n : Nat)
    (h : (k, n) ∈ countsBy keys) : n = keys.count k := by
  have hmem : (k, n) ∈ (countsBy keys).filter (fun p => p.1 == k) :=
    List.mem_filter.mpr ⟨h, by simp⟩
  rw [filter_key_of_nodup (countsBy keys) k (nodup_keys_countsBy keys)] at hmem
  by_cases hk : k ∈ (countsBy keys).map Prod.fst
  · rw [if_pos hk] at hmem
    simp only [List.mem_singleton, Prod.mk.injEq] at hmem
    rw [hmem.2, getCount_countsBy]
  · rw [if_neg hk] at hmem
    cases hmem

/-! ### Anomaly-detection lemmas -/

theorem rapidConnectionAlerts_type (logs : List NetworkLog) :
    ∀ a ∈ rapidConnectionAlerts logs, a.type = "RAPID_CONNECTIONS" := by
  intro a ha
  rcases List.mem_filterMap.mp ha with ⟨p, _, hsome⟩
  by_cases h : 20 < p.2
  · rw [if_pos h] at hsome
    cases hsome; rfl
  · rw [if_neg h] at hsome
    cases hsome

theorem countIp_eq_count_map (logs : List NetworkLog) (ip : String) :
    (logs.map fun l => l.sourceIp).count ip = countIp logs ip := by
  induction logs with
  | nil => rfl
  | cons l rest ih =>
    simp only [List.map_cons, List.count_cons, countIp, List.filter_cons]
    by_cases h : l.sourceIp == ip
    · have hk : l.sourceIp = ip := by simpa using h
      have : (ip == l.sourceIp) = true := by simp [hk]
      simp only [this, if_true, h]
      simp only [countIp] at ih
      simp [ih]
    · have : (ip == l.sourceIp) = false := by
        simp only [beq_eq_false_iff_ne, ne_eq]
        intro hk
        exact absurd (by simp [hk]) h
      simp only [this, if_false, h]
      simp only [countIp] at ih
      simp [ih]

theorem rapid_filter_length (m : List (String × Nat)) (ip : String) :
    ((m.filterMap fun p =>
        if 20 < p.2 then some (rapidConnectionAlert p.1 p.2) else none).filter
          fun a => a.sourceIp == some ip).length
      = (m.filter fun p => p.1 == ip && decide (20 < p.2)).length := by
  induction m with
  | nil => rfl
  | cons p rest ih =>
    have hsrc : ((rapidConnectionAlert p.1 p.2).sourceIp == some ip)
        = (p.1 == ip) := by
      simp [rapidConnectionAlert]
    by_cases h20 : 20 < p.2
    · by_cases hip : p.1 == ip
      · simp [List.filterMap_cons, List.filter_cons, h20, hip, hsrc, ih]
      · simp [List.filterMap_cons, List.filter_cons, h20, hip, hsrc, ih]
    · by_cases hip : p.1 == ip <;>
        simp [List.filterMap_cons, List.filter_cons, h20, hip, hsrc, ih]

/-- Concrete instantiation of `resolveAlert_monotone`: a store whose one
alert is unresolved; resolving its id marks it resolved with the call-time
resolved-at. -/
theorem resolveAlert_monotone_witness :
    Alert.isResolved { id := 1, timestamp := 0, severity := "MEDIUM",
                       type := "RAPID_CONNECTIONS", title := "t",
                       description := "d", sourceIp := none,
                       isResolved := true, resolvedAt := some 50 }
        = true
      ∧ Alert.resolvedAt { id := 1, timestamp := 0, severity := "MEDIUM",
                           type := "RAPID_CONNECTIONS", title := "t",
                           description := "d", sourceIp := none,
                           isResolved := true, resolvedAt := some 50 }
          = some 50 := by
  have h := resolveAlert_monotone
    { alerts := [{ id := 1, timestamp := 0, severity := "MEDIUM",
                   type := "RAPID_CONNECTIONS", title := "t", description := "d",
                   sourceIp := none, isResolved := true, resolvedAt := some 7 }] }
    1 50 (by decide)
  exact h.2.2 _ (by decide) rfl


/-- C2: per detection cycle, each source with strictly more than 20 logs in
the 5-minute window yields exactly one RAPID_CONNECTIONS alert (and a
source at or below 20 yields none); the alert is MEDIUM and names the
source and its window count. Re-firing per cycle is immediate: the cycle
is a pure function of the window, with no memory of earlier cycles. -/
theorem detectAnomalies_rapid (logs : List NetworkLog) (ip : String) :
    ((detectAnomaliesAlerts logs).filter fun a =>
        a.type == "RAPID_CONNECTIONS" && a.sourceIp == some ip).length
      = (if 20 < countIp logs ip then 1 else 0)
    ∧ ∀ a ∈ detectAnomaliesAlerts logs,
        a.type = "RAPID_CONNECTIONS" → a.sourceIp = some ip →
          a.severity = "MEDIUM"
            ∧ a.description = "IP " ++ ip ++ " made " ++ toString (countIp logs ip)
                ++ " connections in the last 5 minutes" := by
  constructor
  · have hbw : ((if 100 * 1024 * 1024 < totalData logs
        then [highBandwidthAlert (totalData logs)] else []).filter fun a =>
          a.type == "RAPID_CONNECTIONS" && a.sourceIp == some ip) = [] := by
      by_cases h : 100 * 1024 * 1024 < totalData logs
      · rw [if_pos h]
        simp [highBandwidthAlert]
      · rw [if_neg h]
        rfl
    have hcong : (rapidConnectionAlerts logs).filter
          (fun a => a.type == "RAPID_CONNECTIONS" && a.sourceIp == some ip)
        = (rapidConnectionAlerts logs).filter (fun a => a.sourceIp == some ip) := by
      apply List.filter_congr
      intro a ha
      have ht := rapidConnectionAlerts_type logs a ha
      simp [ht]
    rw [detectAnomaliesAlerts, List.filter_append, List.length_append, hbw,
      List.length_nil, Nat.add_zero, hcong, rapidConnectionAlerts,
      rapid_filter_length]
    have hff : ((ipCounts logs).filter fun p => p.1 == ip && decide (20 < p.2))
        = (((ipCounts logs).filter fun p => p.1 == ip).filter
            fun p => decide (20 < p.2)) := by
      rw [List.filter_filter]
      apply List.filter_congr
      intro p _
      exact Bool.and_comm _ _
    have hnodup : ((ipCounts logs).map Prod.fst).Nodup := nodup_keys_countsBy _
    have hcnt : getCount (ipCounts logs) ip = countIp logs ip := by
      rw [ipCounts, getCount_countsBy, countIp_eq_count_map]
    rw [hff, filter_key_of_nodup _ _ hnodup]
    by_cases hmem : ip ∈ (ipCounts logs).map Prod.fst
    · rw [if_pos hmem]
      by_cases h20 : 20 < countIp logs ip
      · simp [List.filter_cons, hcnt, h20]
      · simp [List.filter_cons, hcnt, h20]
    · rw [if_neg hmem]
      have h0 : countIp logs ip = 0 := by
        rw [← countIp_eq_count_map]
        refine List.count_eq_zero.mpr ?_
        intro hin
        exact hmem ((by rw [ipCounts]; exact mem_keys_countsBy _ _ :
          ip ∈ (ipCounts logs).map Prod.fst ↔ ip ∈ logs.map fun l => l.sourceIp).mpr hin)
      simp [h0]
  · intro a ha htype hsrc
    rcases List.mem_append.mp ha with hrap | hbw
    · rcases List.mem_filterMap.mp hrap with ⟨p, hp, hsome⟩
      by_cases h20 : 20 < p.2
      · rw [if_pos h20] at hsome
        cases hsome
        have hip : p.1 = ip := by
          simpa [rapidConnectionAlert] using hsrc
        have hval : p.2 = countIp logs p.1 := by
          have hp2 : (p.1, p.2) ∈ countsBy (logs.map fun l => l.sourceIp) := by
            rw [ipCounts] at hp
            simpa using hp
          have := mem_countsBy_val (logs.map fun l => l.sourceIp) p.1 p.2 hp2
          rw [this, countIp_eq_count_map]
        refine ⟨rfl, ?_⟩
        simp only [rapidConnectionAlert, hip] at hval ⊢
        rw [hval]
      · rw [if_neg h20] at hsome
        cases hsome
    · by_cases h : 100 * 1024 * 1024 < totalData logs
      · rw [if_pos h] at hbw
        simp only [List.mem_singleton] at hbw
        subst hbw
        have hhb : (highBandwidthAlert (totalData logs)).type
            = "HIGH_BANDWIDTH" := rfl
        rw [hhb] at htype
        exact absurd htype (by decide)
      · rw [if_neg h] at hbw
        cases hbw

/-- Concrete instantiation of `detectAnomalies_rapid`: 21 window logs from
source 10.0.0.5 yield exactly one RAPID_CONNECTIONS alert for it. -/
theorem detectAnomalies_rapid_witness :
    ((detectAnomaliesAlerts (List.replicate 21 (mkLog "10.0.0.5" 0))).filter
        fun a =>
          a.type == "RAPID_CONNECTIONS" && a.sourceIp == some "10.0.0.5").length
      = 1 := by
  rw [(detectAnomalies_rapid (List.replicate 21 (mkLog "10.0.0.5" 0))
    "10.0.0.5").1]
  decide

/-- C3: per detection cycle, exactly one HIGH_BANDWIDTH alert is created
when the summed window dataSize strictly exceeds 104,857,600 bytes and none
otherwise (so none at exactly the threshold); the alert is MEDIUM and its
description renders the total in MB with two decimals. -/
theorem detectAnomalies_bandwidth (logs : List NetworkLog) :
    ((detectAnomaliesAlerts logs).filter fun a =>
        a.type == "HIGH_BANDWIDTH").length
      = (if 104857600 < totalData logs then 1 else 0)
    ∧ ∀ a ∈ detectAnomaliesAlerts logs, a.type = "HIGH_BANDWIDTH" →
        a.severity = "MEDIUM"
          ∧ a.description = toFixed2MB (totalData logs)
              ++ " MB transferred in the last 5 minutes" := by
  have hth : (104857600 : Int) = 100 * 1024 * 1024 := by norm_num
  constructor
  · have hrap : ((rapidConnectionAlerts logs).filter fun a =>
        a.type == "HIGH_BANDWIDTH") = [] := by
      rw [List.filter_eq_nil_iff]
      intro a ha
      have ht := rapidConnectionAlerts_type logs a ha
      simp [ht]
    rw [detectAnomaliesAlerts, List.filter_append, List.length_append, hrap,
      List.length_nil, Nat.zero_add, hth]
    by_cases h : 100 * 1024 * 1024 < totalData logs
    · rw [if_pos h, if_pos h]
      simp [highBandwidthAlert]
    · rw [if_neg h, if_neg h]
      rfl
  · intro a ha htype
    rcases List.mem_append.mp ha with hrap | hbw
    · have ht := rapidConnectionAlerts_type logs a hrap
      rw [ht] at htype
      exact absurd htype (by decide)
    · by_cases h : 100 * 1024 * 1024 < totalData logs
      · rw [if_pos h] at hbw
        simp only [List.mem_singleton] at hbw
        subst hbw
        exact ⟨rfl, rfl⟩
      · rw [if_neg h] at hbw
        cases hbw

/-- Concrete instantiation of `detectAnomalies_bandwidth`: one window log
of 104,857,601 bytes yields exactly one HIGH_BANDWIDTH alert, while a
window summing to exactly 104,857,600 bytes yields none. -/
theorem detectAnomalies_bandwidth_witness :
    ((detectAnomaliesAlerts [mkLog "10.0.0.5" 104857601]).filter fun a =>
        a.type == "HIGH_BANDWIDTH").length = 1
      ∧ ((detectAnomaliesAlerts [mkLog "10.0.0.5" 104857600]).filter fun a =>
          a.type == "HIGH_BANDWIDTH").length = 0 := by
  constructor
  · rw [(detectAnomalies_bandwidth [mkLog "10.0.0.5" 104857601]).1]
    decide
  · rw [(detectAnomalies_bandwidth [mkLog "10.0.0.5" 104857600]).1]
    decide


/-! ### Metrics-rollup lemmas -/

theorem count_map_eq_length_filter (f : NetworkLog → String)
    (logs : List NetworkLog) (k : String) :
    (logs.map f).count k = (logs.filter fun l => f l == k).length := by
  induction logs with
  | nil => rfl
  | cons l rest ih =>
    simp only [List.map_cons, List.count_cons, List.filter_cons]
    by_cases h : f l == k
    · have hk : f l = k := by simpa using h
      have hkb : (k == f l) = true := by simp [hk]
      simp [h, hkb, ih]
    · have hk : ¬f l = k := by simpa using h
      have hkb : (k == f l) = false := by
        simp only [beq_eq_false_iff_ne, ne_eq]
        intro hkk
        exact hk hkk.symm
      simp [h, hkb, ih]

theorem count_filterMap_destKey (logs : List NetworkLog) (k : String) :
    (logs.filterMap destKey).count k
      = (logs.filter fun l => destKey l == some k).length := by
  induction logs with
  | nil => rfl
  | cons l rest ih =>
    rw [List.filterMap_cons, List.filter_cons]
    cases hd : destKey l with
    | none => simp [hd, ih]
    | some v =>
      by_cases hv : v = k
      · subst hv
        simp [hd, List.count_cons, ih]
      · have h1 : (k == v) = false := by
          simp only [beq_eq_false_iff_ne, ne_eq]
          intro hkk
          exact hv hkk.symm
        have h2 : (some v == some k) = false := by simp [hv]
        simp [hd, List.count_cons, h1, h2, ih, hv]

/-- C5: each rollup cycle appends exactly one metric row whose fields are
the window aggregates — total traffic as decimal string, active-connection
count, BLOCK count, per-protocol counts and per-host counts over logs with
a non-empty destination host; on an empty store the row is all zeros with
empty maps. -/
theorem aggregateMetrics_rollup (st : StoreState) (now : Int) :
    ((aggregateMetricsStep st now).1.trafficMetrics
        = st.trafficMetrics ++ [(aggregateMetricsStep st now).2])
      ∧ (aggregateMetricsStep st now).2.totalTraffic
          = toString (totalData (getNetworkLogsByTimeRange st (now - 60 * 60 * 1000) now))
      ∧ (aggregateMetricsStep st now).2.activeConnections
          = ((st.connections.filter fun c => c.isActive).length : Int)
      ∧ (aggregateMetricsStep st now).2.blockedRequests
          = (((getNetworkLogsByTimeRange st (now - 60 * 60 * 1000) now).filter
              fun l => l.action == "BLOCK").length : Int)
      ∧ (∀ p, getCount (aggregateMetricsStep st now).2.protocolDistribution p
          = ((getNetworkLogsByTimeRange st (now - 60 * 60 * 1000) now).filter
              fun l => l.protocol == p).length)
      ∧ (∀ k, getCount (aggregateMetricsStep st now).2.topDestinations k
          = ((getNetworkLogsByTimeRange st (now - 60 * 60 * 1000) now).filter
              fun l => destKey l == some k).length)
      ∧ ((aggregateMetricsStep emptyStore now).2.totalTraffic = "0"
          ∧ (aggregateMetricsStep emptyStore now).2.activeConnections = 0
          ∧ (aggregateMetricsStep emptyStore now).2.blockedRequests = 0
          ∧ (aggregateMetricsStep emptyStore now).2.protocolDistribution = []
          ∧ (aggregateMetricsStep emptyStore now).2.topDestinations = []) := by
  refine ⟨rfl, rfl, rfl, rfl, ?_, ?_, rfl, rfl, rfl, rfl, rfl⟩
  · intro p
    show getCount (countsBy ((getNetworkLogsByTimeRange st
      (now - 60 * 60 * 1000) now).map fun l => l.protocol)) p = _
    rw [getCount_countsBy, count_map_eq_length_filter]
  · intro k
    show getCount (countsBy ((getNetworkLogsByTimeRange st
      (now - 60 * 60 * 1000) now).filterMap destKey)) k = _
    rw [getCount_countsBy, count_filterMap_destKey]

/-- Concrete instantiation of `aggregateMetrics_rollup` at the empty store:
one row is appended and it is all zeros. -/
theorem aggregateMetrics_rollup_witness :
    ((aggregateMetricsStep emptyStore 0).1.trafficMetrics
        = emptyStore.trafficMetrics ++ [(aggregateMetricsStep emptyStore 0).2])
      ∧ (aggregateMetricsStep emptyStore 0).2.totalTraffic = "0"
      ∧ (aggregateMetricsStep emptyStore 0).2.activeConnections = 0 := by
  have h := aggregateMetrics_rollup emptyStore 0
  exact ⟨h.1, h.2.2.2.2.2.2.1, h.2.2.2.2.2.2.2.1⟩

/-- C4: with the socket still Open, `sendInitialData` sends exactly one
message, of type `initialData`, whose stats are the dashboard aggregate,
whose alerts are exactly the currently unresolved alert rows, and whose
logs are at most 10 rows in newest-first order. -/
theorem sendInitialData_snapshot (st : StoreState) (ws : Client)
    (hopen : ws.readyState = ReadyState.OPEN) :
    (sendInitialData st ws).length = 1
      ∧ ∀ m ∈ sendInitialData st ws,
          m.type = "initialData"
            ∧ m.stats = getDashboardStats st
            ∧ m.alerts.Perm (st.alerts.filter fun a => !a.isResolved)
            ∧ (∀ a ∈ m.alerts, a.isResolved = false)
            ∧ m.logs.length ≤ 10
            ∧ m.logs.Sorted tsDescLog := by
  rw [sendInitialData, if_pos hopen]
  refine ⟨rfl, ?_⟩
  intro m hm
  simp only [List.mem_singleton] at hm
  subst hm
  refine ⟨rfl, rfl, ?_, ?_, ?_, ?_⟩
  · exact List.perm_insertionSort tsDescAlert _
  · intro a ha
    have hmem : a ∈ st.alerts.filter fun a => !a.isResolved :=
      (List.perm_insertionSort tsDescAlert _).subset ha
    have := (List.mem_filter.mp hmem).2
    simpa using this
  · show (((st.networkLogs.insertionSort tsDescLog).drop 0).take 10).length ≤ 10
    exact List.length_take_le 10 _
  · show List.Sorted tsDescLog
      (((st.networkLogs.insertionSort tsDescLog).drop 0).take 10)
    have hs : List.Sorted tsDescLog (st.networkLogs.insertionSort tsDescLog) :=
      List.sorted_insertionSort tsDescLog _
    have hsub : List.Sublist
        (((st.networkLogs.insertionSort tsDescLog).drop 0).take 10)
        (st.networkLogs.insertionSort tsDescLog) := by
      rw [List.drop_zero]
      exact List.take_sublist 10 _
    exact List.Pairwise.sublist hsub hs

/-- Concrete instantiation of `sendInitialData_snapshot`: an Open socket
against the empty store receives exactly one snapshot message. -/
theorem sendInitialData_snapshot_witness :
    (sendInitialData emptyStore ⟨5, ReadyState.OPEN⟩).length = 1 :=
  (sendInitialData_snapshot emptyStore ⟨5, ReadyState.OPEN⟩ rfl).1


/-! ### Insert-validation theorems -/

/-- Counterexample to C6 as stated: `insertNetworkLogSchema` is generated
from the table shape with only `id` and `timestamp` omitted, so a body with
action "EVIL" and dataSize −1 passes validation and is stored verbatim —
neither the action enumeration nor dataSize ≥ 0 is checked anywhere. -/
theorem insertNetworkLogSchema_accepts_invalid :
    (insertNetworkLogSchemaParse
        { sourceIp := some "10.0.0.5", protocol := some "TCP",
          action := some "EVIL", dataSize := some (-1) }).isSome = true
      ∧ ¬("EVIL" = "ALLOW" ∨ "EVIL" = "BLOCK" ∨ "EVIL" = "DENY")
      ∧ ((-1 : Int) < 0)
      ∧ (createNetworkLog emptyStore
          { sourceIp := "10.0.0.5", protocol := "TCP", action := "EVIL",
            dataSize := some (-1) } 0).2.action = "EVIL"
      ∧ (createNetworkLog emptyStore
          { sourceIp := "10.0.0.5", protocol := "TCP", action := "EVIL",
            dataSize := some (-1) } 0).2.dataSize = some (-1) :=
  ⟨rfl, by decide, by decide, rfl, rfl⟩

/-- C6 amended: log creation validates only presence of the required
columns (and the varchar widths); within those bounds any action string and
any integer dataSize — negative included — is accepted and stored
unmodified, while a body missing a required field is still rejected. -/
theorem insertNetworkLogSchema_no_domain_checks
    (sip proto act : String) (d : Int)
    (h1 : sip.length ≤ 45) (h2 : proto.length ≤ 10) (h3 : act.length ≤ 10) :
    insertNetworkLogSchemaParse
        { sourceIp := some sip, protocol := some proto, action := some act,
          dataSize := some d }
      = some { sourceIp := sip, protocol := proto, action := act,
               dataSize := some d }
      ∧ (∀ inp : NetworkLogInput, inp.action = none →
          insertNetworkLogSchemaParse inp = none)
      ∧ (createNetworkLog emptyStore
          { sourceIp := sip, protocol := proto, action := act,
            dataSize := some d } 0).2.action = act
      ∧ (createNetworkLog emptyStore
          { sourceIp := sip, protocol := proto, action := act,
            dataSize := some d } 0).2.dataSize = some d := by
  refine ⟨?_, ?_, rfl, rfl⟩
  · simp [insertNetworkLogSchemaParse, h1, h2, h3]
  · intro inp hact
    rcases hsip : inp.sourceIp with _ | v1 <;>
      rcases hpro : inp.protocol with _ | v2 <;>
        simp [insertNetworkLogSchemaParse, hsip, hpro, hact]

/-- Concrete instantiation of `insertNetworkLogSchema_no_domain_checks`:
action "FOO" with dataSize −5 parses successfully. -/
theorem insertNetworkLogSchema_no_domain_checks_witness :
    insertNetworkLogSchemaParse
        { sourceIp := some "1.2.3.4", protocol := some "UDP",
          action := some "FOO", dataSize := some (-5) }
      = some { sourceIp := "1.2.3.4", protocol := "UDP", action := "FOO",
               dataSize := some (-5) } :=
  (insertNetworkLogSchema_no_domain_checks "1.2.3.4" "UDP" "FOO" (-5)
    (by decide) (by decide) (by decide)).1

/-! ### Periodic-task failure lemmas -/

theorem keptPlanned_length_le (oracle : Nat → Bool) :
    ∀ (planned : List InsertNetworkLog) (base : Nat),
      (keptPlanned oracle base planned).length ≤ planned.length := by
  intro planned
  induction planned with
  | nil => intro base; exact Nat.le_refl 0
  | cons l rest ih =>
    intro base
    by_cases h : oracle base
    · simp only [keptPlanned, if_pos h, List.length_cons]
      exact Nat.succ_le_succ (ih (base + 1))
    · simp only [keptPlanned, if_neg h, List.length_cons]
      exact Nat.le_succ_of_le (ih (base + 1))

theorem simLoop_logs (oracle : Nat → Bool) (now : Int) :
    ∀ (planned : List InsertNetworkLog) (c : EngineCtx),
      (simLoop oracle now planned c).st.networkLogs.map (fun l => l.sourceIp)
        = c.st.networkLogs.map (fun l => l.sourceIp)
          ++ (keptPlanned oracle c.calls planned).map (fun l => l.sourceIp) := by
  intro planned
  induction planned with
  | nil => intro c; simp [simLoop, keptPlanned]
  | cons l rest ih =>
    intro c
    by_cases h : oracle c.calls
    · simp only [simLoop, createNetworkLogE, h, if_pos, createNetworkLog]
      rw [ih]
      simp [keptPlanned, h]
    · simp only [simLoop, createNetworkLogE, h, if_neg, Bool.false_eq_true,
        not_false_iff]
      rw [ih]
      simp [keptPlanned, h]

theorem simLoop_errors (oracle : Nat → Bool) (now : Int) :
    ∀ (planned : List InsertNetworkLog) (c : EngineCtx),
      (simLoop oracle now planned c).errorsLogged
        = c.errorsLogged
          + (planned.length - (keptPlanned oracle c.calls planned).length) := by
  intro planned
  induction planned with
  | nil => intro c; simp [simLoop, keptPlanned]
  | cons l rest ih =>
    intro c
    have hle := keptPlanned_length_le oracle rest (c.calls + 1)
    by_cases h : oracle c.calls
    · simp only [simLoop, createNetworkLogE, h, if_pos]
      rw [ih]
      simp only [keptPlanned, if_pos h, List.length_cons]
      omega
    · simp only [simLoop, createNetworkLogE, h, if_neg, Bool.false_eq_true,
        not_false_iff]
      rw [ih]
      simp only [keptPlanned, if_neg h, List.length_cons]
      omega

/-- C8: no store failure escapes any of the three periodic tasks — for
every failure oracle each task completes (`Except.ok`) — and inside the
synthesis loop each failed write is caught on its own: the surviving stored
records are exactly the planned ones whose write the oracle allowed, later
records unaffected by earlier failures, with one error logged per failed
write. -/
theorem periodicTasks_swallow_failures (oracle : Nat → Bool) (now : Int)
    (planned : List InsertNetworkLog)
    (susp : Option (InsertNetworkLog × InsertAlert)) (c : EngineCtx) :
    (simulateNetworkTrafficTask oracle now planned susp c).isOk = true
      ∧ (detectAnomaliesTask oracle now c).isOk = true
      ∧ (aggregateMetricsTask oracle now c).isOk = true
      ∧ (simLoop oracle now planned c).st.networkLogs.map (fun l => l.sourceIp)
          = c.st.networkLogs.map (fun l => l.sourceIp)
            ++ (keptPlanned oracle c.calls planned).map (fun l => l.sourceIp)
      ∧ (simLoop oracle now planned c).errorsLogged
          = c.errorsLogged
            + (planned.length - (keptPlanned oracle c.calls planned).length) :=
  ⟨rfl, rfl, rfl, simLoop_logs oracle now planned c,
    simLoop_errors oracle now planned c⟩

end ElasticMonitor
